import Mathlib

/-!
# Verification of the sunny_milk CD-ROM adapter

Shallow embedding of the protocol-adapter core of the `sunny_milk` crate:
the operation registry (`src/constants.rs`), the address converter and wire
structures (`src/structures.rs`), and the drive controller
(`src/platform/linux.rs`).

Device interaction is modelled by passing the outcome the kernel ioctl would
produce as an explicit parameter (`Except Int α`: an errno on failure, the
written-back data on success).  A function whose result is independent of
that parameter never consults the device.  Rust panics are modelled as a
dedicated `panicked` outcome carrying an abstract message tag.

Machine integers: `i32` values are modelled as `Int` (no intermediate result
in the modelled code can exceed 31 bits, so wrapping never occurs except at
the explicit `as u8` casts, which are modelled by `asU8`); `u8` and `usize`
values are modelled as `Nat`.  Rust `/` and `%` on `i32` truncate toward
zero, which is `Int.tdiv` / `Int.tmod`.
-/

namespace SunnyMilk

/-- Rust `as u8` wrapping cast: the low 8 bits of the two's-complement
representation, i.e. the Euclidean remainder mod 256. -/
def asU8 (v : Int) : Nat := (v % 256).toNat

/-! ## constants.rs -/

/-- `pub const EDRIVE_CANT_DO_THIS: i32 = nix::errno::Errno::EOPNOTSUPP as i32;`
(constants.rs line 6).  On Linux `EOPNOTSUPP = 95`. -/
def EDRIVE_CANT_DO_THIS : Int := 95

/-- `pub const IOC_BYTE: u8 = 0x53;` (constants.rs line 9). -/
def IOC_BYTE : Nat := 0x53

/-- `pub const CD_SECS: i32 = 60;` -/
def CD_SECS : Int := 60

/-- `pub const CD_FRAMES: i32 = 75;` -/
def CD_FRAMES : Int := 75

/-- `pub const CD_MSF_OFFSET: i32 = 150;` -/
def CD_MSF_OFFSET : Int := 150

/-- `pub const CD_FRAMESIZE_RAW: i32 = 2352;` (used as a `usize` in the
buffer-size checks, hence modelled as `Nat`). -/
def CD_FRAMESIZE_RAW : Nat := 2352

/-! Linux errno values referenced by the adapter (from `nix::errno::Errno`). -/

/-- Linux `EIO`. -/
def EIO : Int := 5

/-- Linux `EBUSY`. -/
def EBUSY : Int := 16

/-- Linux `ENOSYS`. -/
def ENOSYS : Int := 38

/-- Linux `EOPNOTSUPP`. -/
def EOPNOTSUPP : Int := 95

/-- Linux `ENOMEDIUM`. -/
def ENOMEDIUM : Int := 123

/-- `enum Operation` (constants.rs lines 14-139): the closed registry of
symbolic drive commands. -/
inductive Operation
  | Pause
  | Resume
  | PlayMsf
  | PlayTrackIndex
  | ReadTocHeader
  | ReadTocEntry
  | Stop
  | Start
  | Eject
  | VolumeControl
  | SubChannel
  | ReadMode2
  | ReadMode1
  | ReadAudio
  | EjectSoftware
  | MultiSession
  | GetMcn
  | Reset
  | VolumeRead
  | ReadRaw
  | ReadCooked
  | Seek
  | PlayBlock
  | ReadAll
  | GetSpindown
  | SetSpindown
  | CloseTray
  | SetOptions
  | ClearOptions
  | SelectSpeed
  | SelectDisk
  | MediaChanged
  | DriveStatus
  | DiscStatus
  | ChangerNslots
  | LockDoor
  | Debug
  | GetCapability
  | AudioBufferSize
  | DvdReadStructure
  | DvdWriteStructure
  | DvdAuthenticate
  | SendPacket
  | NextWritable
  | LastWritten
  | TimedMediaChange
deriving DecidableEq

/-- The one-byte opcode carried by each `Operation` (its `#[repr(u8)]`
discriminant; `op.to_u8()` in the source, which never fails on a fieldless
`repr(u8)` enum). -/
def Operation.toU8 : Operation → Nat
  | .Pause => 0x01
  | .Resume => 0x02
  | .PlayMsf => 0x03
  | .PlayTrackIndex => 0x04
  | .ReadTocHeader => 0x05
  | .ReadTocEntry => 0x06
  | .Stop => 0x07
  | .Start => 0x08
  | .Eject => 0x09
  | .VolumeControl => 0x0a
  | .SubChannel => 0x0b
  | .ReadMode2 => 0x0c
  | .ReadMode1 => 0x0d
  | .ReadAudio => 0x0e
  | .EjectSoftware => 0x0f
  | .MultiSession => 0x10
  | .GetMcn => 0x11
  | .Reset => 0x12
  | .VolumeRead => 0x13
  | .ReadRaw => 0x14
  | .ReadCooked => 0x15
  | .Seek => 0x16
  | .PlayBlock => 0x17
  | .ReadAll => 0x18
  | .GetSpindown => 0x1d
  | .SetSpindown => 0x1e
  | .CloseTray => 0x19
  | .SetOptions => 0x20
  | .ClearOptions => 0x21
  | .SelectSpeed => 0x22
  | .SelectDisk => 0x23
  | .MediaChanged => 0x25
  | .DriveStatus => 0x26
  | .DiscStatus => 0x27
  | .ChangerNslots => 0x28
  | .LockDoor => 0x29
  | .Debug => 0x30
  | .GetCapability => 0x31
  | .AudioBufferSize => 0x82
  | .DvdReadStructure => 0x90
  | .DvdWriteStructure => 0x91
  | .DvdAuthenticate => 0x92
  | .SendPacket => 0x93
  | .NextWritable => 0x94
  | .LastWritten => 0x95
  | .TimedMediaChange => 0x96

/-- `pub fn op_to_ioctl(op: Operation) -> u64` (constants.rs lines 142-146):
`((IOC_BYTE as u64) << 8) + value as u64`. -/
def op_to_ioctl (op : Operation) : Nat :=
  (IOC_BYTE <<< 8) + op.toU8

/-- `enum AddressType` (constants.rs lines 198-201): `Lba = 0x01, Msf = 0x02`. -/
inductive AddressType
  | Lba
  | Msf
deriving DecidableEq

/-- The `#[repr(u8)]` discriminant of `AddressType` (`as u8` in the source). -/
def AddressType.toU8 : AddressType → Nat
  | .Lba => 0x01
  | .Msf => 0x02

/-! ## structures.rs -/

/-- `struct Msf { minute: u8, second: u8, frame: u8 }` (structures.rs
lines 8-12).  The fields are bytes; the claims hypothesise the byte bound
where it matters. -/
structure Msf where
  minute : Nat
  second : Nat
  frame : Nat
deriving DecidableEq, Repr

/-- `Msf::to_lba` (structures.rs lines 15-17):
`(((minute as i32 * CD_SECS) + second as i32) * CD_FRAMES + frame as i32) - CD_MSF_OFFSET`. -/
def Msf.to_lba (m : Msf) : Int :=
  (((m.minute : Int) * CD_SECS + (m.second : Int)) * CD_FRAMES + (m.frame : Int))
    - CD_MSF_OFFSET

/-- `Msf::from_lba` (structures.rs lines 19-26).  `offset_a = lba + CD_MSF_OFFSET`;
the three fields are computed with i32 truncating division/remainder and then
cast `as u8` (note the source mixes the named constants with the literals
`60` and `75`). -/
def Msf.from_lba (lba : Int) : Msf :=
  let offset_a := lba + CD_MSF_OFFSET
  { minute := asU8 ((offset_a.tdiv CD_FRAMES).tdiv 60)
    second := asU8 ((offset_a.tdiv CD_FRAMES).tmod 60)
    frame := asU8 (offset_a.tmod 75) }

/-- `Msf::invalid` (structures.rs lines 28-34):
`if self.minute == 0 && self.second < 2 { true } else { false }`. -/
def Msf.invalid (m : Msf) : Bool :=
  if m.minute = 0 ∧ m.second < 2 then true else false

/-- `union AddrUnion` (structures.rs lines 40-43).  A C union of an `i32`
logical address and an `Msf`; modelled as carrying both views (the adapter
only ever reads the view selected by the accompanying format discriminant).
`mem::zeroed()` corresponds to both views being zero. -/
structure AddrUnion where
  lba : Int
  msf : Msf
deriving DecidableEq, Repr

/-- `enum Addr` (structures.rs lines 46-49). -/
inductive Addr
  | Lba (lba : Int)
  | Msf (msf : Msf)
deriving DecidableEq, Repr

/-- `Addr::into_msf` (structures.rs lines 52-57). -/
def Addr.into_msf : Addr → SunnyMilk.Msf
  | .Lba a => Msf.from_lba a
  | .Msf msf => msf

/-- `Addr::into_lba` (structures.rs lines 59-64). -/
def Addr.into_lba : Addr → Int
  | .Lba a => a
  | .Msf msf => msf.to_lba

/-- `struct TocHeader` (structures.rs lines 107-110). -/
structure TocHeader where
  first_track : Nat
  last_track : Nat
deriving DecidableEq, Repr

/-- `#[derive(Default)]` for `TocHeader`: both bytes zero. -/
def TocHeader.default : TocHeader := ⟨0, 0⟩

/-- `struct _TocEntry` (structures.rs lines 114-120): the wire structure for
the read-TOC-entry ioctl. -/
structure _TocEntry where
  track : Nat
  adr_ctrl : Nat
  format : Nat
  addr : AddrUnion
  datamode : Nat
deriving DecidableEq, Repr

/-- `impl Default for _TocEntry` (structures.rs lines 122-134): everything
zeroed except `format`, preset to `AddressType::Msf as u8`. -/
def _TocEntry.default : _TocEntry :=
  { track := 0
    adr_ctrl := 0
    format := AddressType.Msf.toU8
    addr := ⟨0, ⟨0, 0, 0⟩⟩
    datamode := 0 }

/-- `struct TocEntry` (structures.rs lines 138-143): the public, decoded
TOC entry. -/
structure TocEntry where
  track : Nat
  adr : Nat
  ctrl : Nat
  addr : Addr
deriving DecidableEq, Repr

/-- `struct _SubChannel` (structures.rs lines 164-172): the wire structure
for the sub-channel ioctl. -/
structure _SubChannel where
  format : Nat
  audiostatus : Nat
  adr_ctrl : Nat
  trk : Nat
  ind : Nat
  absaddr : AddrUnion
  reladdr : AddrUnion
deriving DecidableEq, Repr

/-- `impl Default for _SubChannel` (structures.rs lines 174-188): everything
zeroed except `format`, preset to `AddressType::Msf as u8`. -/
def _SubChannel.default : _SubChannel :=
  { format := AddressType.Msf.toU8
    audiostatus := 0
    adr_ctrl := 0
    trk := 0
    ind := 0
    absaddr := ⟨0, ⟨0, 0, 0⟩⟩
    reladdr := ⟨0, ⟨0, 0, 0⟩⟩ }

/-- `struct SubChannel` (structures.rs lines 191-199): the public, decoded
sub-channel status. -/
structure SubChannel where
  audiostatus : Nat
  adr : Nat
  ctrl : Nat
  trk : Nat
  ind : Nat
  absaddr : Addr
  reladdr : Addr
deriving DecidableEq, Repr

/-! ## platform/linux.rs -/

/-- `enum CDRomError` (linux.rs lines 23-48).  `Errno` wraps the raw OS
failure code (`nix::errno::Errno`, modelled by its raw value). -/
inductive CDRomError
  | Errno (code : Int)
  | NoDisc
  | NotAudioCD
  | DoorLocked
  | Unsupported
  | Busy
  | InvalidAddress
  | InvalidBufferSize (needed : Nat) (got : Nat)
deriving DecidableEq, Repr

/-- Abstract tags for the panic messages that appear in linux.rs.  Each tag
stands for exactly one `panic!` (or `.unwrap()`) site. -/
inductive PanicMsg
  /-- `panic!("MSF second cannot be less than 2!")` (linux.rs line 239). -/
  | msfSecondLessThanTwo
  /-- `panic!("Invalid number of frames!")` (linux.rs line 247). -/
  | invalidNumberOfFrames
  /-- `panic!("Buffer is too small!")` (linux.rs line 251). -/
  | bufferTooSmall
  /-- `panic!("Impossible value returned!")` (linux.rs lines 140, 206, 213). -/
  | impossibleValueReturned
  /-- `.unwrap()` on a failed device call. -/
  | unwrapOnErr
deriving DecidableEq, Repr

/-- Outcome of an adapter method that may return normally, return a typed
error, or panic. -/
inductive CallResult (α : Type)
  | ok (val : α)
  | err (e : CDRomError)
  | panicked (msg : PanicMsg)
deriving DecidableEq, Repr

namespace CDRom

/-- `CDRom::toc_header` (linux.rs lines 111-121).  `header` starts as
`TocHeader::default()`; the ioctl either fails with an errno or overwrites
the header.  The source tests only `is_err_and(|e| e == Errno::ENOMEDIUM)`:
on that errno it returns `NoDisc`, on ANY other errno it falls through and
returns `Ok(header)` with the still-default header. -/
def toc_header (deviceResult : Except Int TocHeader) : Except CDRomError TocHeader :=
  match deviceResult with
  | .error e => if e = ENOMEDIUM then .error CDRomError.NoDisc else .ok TocHeader.default
  | .ok header => .ok header

/-- `CDRom::toc_entry` (linux.rs lines 123-146).  The ioctl result is
`.unwrap()`ed (panic on failure); on success the returned wire entry is
decoded: `adr = adr_ctrl >> 4`, `ctrl = adr_ctrl & 0x0F`, and the address
union is read according to the returned `format` discriminant, panicking on
any other discriminant value. -/
def toc_entry (deviceResult : Except Int _TocEntry) : CallResult TocEntry :=
  match deviceResult with
  | .error _ => .panicked .unwrapOnErr
  | .ok entry =>
    if entry.format = AddressType.Lba.toU8 then
      .ok { track := entry.track
            adr := entry.adr_ctrl >>> 4
            ctrl := entry.adr_ctrl &&& 0x0F
            addr := .Lba entry.addr.lba }
    else if entry.format = AddressType.Msf.toU8 then
      .ok { track := entry.track
            adr := entry.adr_ctrl >>> 4
            ctrl := entry.adr_ctrl &&& 0x0F
            addr := .Msf entry.addr.msf }
    else .panicked .impossibleValueReturned

/-- `CDRom::set_lock` (linux.rs lines 148-163).  On an errno, `EBUSY` maps to
`Busy` and everything else to `Errno(e)`.  On success the source matches the
returned value against `EDRIVE_CANT_DO_THIS` — but that constant is NOT
imported in linux.rs (unlike in main.rs, which writes
`constants::EDRIVE_CANT_DO_THIS`), so the pattern is a fresh identifier
binding that matches EVERY value; the `_ => Ok(())` arm is unreachable and
every successful call returns `Unsupported`. -/
def set_lock (_locked : Bool) (deviceResult : Except Int Int) : CallResult Unit :=
  match deviceResult with
  | .error e => if e = EBUSY then .err .Busy else .err (.Errno e)
  | .ok _result => .err .Unsupported

/-- `CDRom::subchannel` (linux.rs lines 189-217).  The ioctl result is
`.unwrap()`ed; on success the wire structure is decoded with the same nibble
split as `toc_entry`, and both address unions are read according to the
single returned `format` discriminant (panic on any other value). -/
def subchannel (deviceResult : Except Int _SubChannel) : CallResult SubChannel :=
  match deviceResult with
  | .error _ => .panicked .unwrapOnErr
  | .ok argument =>
    if argument.format = AddressType.Lba.toU8 then
      .ok { audiostatus := argument.audiostatus
            adr := argument.adr_ctrl >>> 4
            ctrl := argument.adr_ctrl &&& 0x0F
            trk := argument.trk
            ind := argument.ind
            absaddr := .Lba argument.absaddr.lba
            reladdr := .Lba argument.reladdr.lba }
    else if argument.format = AddressType.Msf.toU8 then
      .ok { audiostatus := argument.audiostatus
            adr := argument.adr_ctrl >>> 4
            ctrl := argument.adr_ctrl &&& 0x0F
            trk := argument.trk
            ind := argument.ind
            absaddr := .Msf argument.absaddr.msf
            reladdr := .Msf argument.reladdr.msf }
    else .panicked .impossibleValueReturned

/-- `CDRom::read_audio_into` (linux.rs lines 234-270).  In source order:
an MSF address in the lead-in region panics; a frame count outside `[1, 75]`
panics; a buffer shorter than `frames * CD_FRAMESIZE_RAW / 2` 16-bit
elements panics; only then is the ioctl issued, whose errno is returned via
`?` as `Errno(e)` and whose nonzero post-call status is decoded as
`Errno(status)` (`Errno::from_raw`).  `bufLen` is the element count of the
caller's `&mut [i16]`; the PCM data written through the buffer pointer is
outside the scope of the modelled claims. -/
def read_audio_into (address : Addr) (frames : Nat) (bufLen : Nat)
    (deviceResult : Except Int Int) : CallResult Unit :=
  let afterAddressCheck : CallResult Unit :=
    if frames < 1 ∨ frames > 75 then .panicked .invalidNumberOfFrames
    else if bufLen < frames * CD_FRAMESIZE_RAW / 2 then .panicked .bufferTooSmall
    else
      match deviceResult with
      | .error e => .err (.Errno e)
      | .ok status => if status ≠ 0 then .err (.Errno status) else .ok ()
  match address with
  | .Lba _ => afterAddressCheck
  | .Msf msf =>
    if msf.minute = 0 ∧ msf.second < 2 then .panicked .msfSecondLessThanTwo
    else afterAddressCheck

/-- `CDRom::read_raw_into` (linux.rs lines 272-299).  The address is
converted to MSF (the inline match mirrors `Addr::into_msf`); a lead-in
address yields `InvalidAddress` and a buffer shorter than one raw frame
yields `InvalidBufferSize`, both before the ioctl; the ioctl result is then
`.unwrap()`ed.  The seek bytes written into `buf[0..3]` and the returned
sector bytes are outside the scope of the modelled claims. -/
def read_raw_into (address : Addr) (bufLen : Nat)
    (deviceResult : Except Int Unit) : CallResult Unit :=
  let address' : Msf :=
    match address with
    | .Lba a => Msf.from_lba a
    | .Msf msf => msf
  if address'.invalid then .err .InvalidAddress
  else if bufLen < CD_FRAMESIZE_RAW then
    .err (.InvalidBufferSize CD_FRAMESIZE_RAW bufLen)
  else
    match deviceResult with
    | .error _ => .panicked .unwrapOnErr
    | .ok _ => .ok ()

end CDRom

/-! ## Theorems -/

/-- Claim C3: for every logical block address `x ≥ -150` whose minute
component fits in a byte (`((x + 150) / 75) / 60 ≤ 255`, stated with the
truncating division the code performs), converting to a time code and back
is the identity: `(Msf.from_lba x).to_lba = x`. -/
theorem to_lba_from_lba_roundtrip (x : Int) (h1 : -150 ≤ x)
    (h2 : ((x + CD_MSF_OFFSET).tdiv CD_FRAMES).tdiv 60 ≤ 255) :
    (Msf.from_lba x).to_lba = x := by
  have ho : (0 : Int) ≤ x + 150 := by omega
  have e1 : (x + 150).tdiv 75 = (x + 150) / 75 := Int.tdiv_eq_ediv ho (by norm_num)
  have h75 : (0 : Int) ≤ (x + 150) / 75 := Int.ediv_nonneg ho (by norm_num)
  have e2 : ((x + 150) / 75).tdiv 60 = (x + 150) / 75 / 60 :=
    Int.tdiv_eq_ediv h75 (by norm_num)
  have e3 : ((x + 150) / 75).tmod 60 = (x + 150) / 75 % 60 :=
    Int.tmod_eq_emod h75 (by norm_num)
  have e4 : (x + 150).tmod 75 = (x + 150) % 75 := Int.tmod_eq_emod ho (by norm_num)
  have h2' : (x + 150) / 75 / 60 ≤ 255 := by
    simp only [CD_MSF_OFFSET, CD_FRAMES] at h2
    rw [e1, e2] at h2
    exact h2
  simp only [Msf.from_lba, Msf.to_lba, asU8, CD_MSF_OFFSET, CD_FRAMES, CD_SECS]
  rw [e1, e2, e3, e4]
  omega

/-- Claim C3 witness: the round-trip theorem applied at the concrete address
`x = 0` (hypotheses discharged by computation). -/
theorem to_lba_from_lba_roundtrip_witness : (Msf.from_lba 0).to_lba = 0 :=
  to_lba_from_lba_roundtrip 0 (by decide) (by decide)

/-- Claim C10: for every logical block address `x ≥ -150` whose minute
component fits in a byte, the time code produced by `Msf.from_lba` is
well-formed: its `second` field is in `[0, 59]` and its `frame` field is in
`[0, 74]` (the lower bounds hold because the fields are `Nat`). -/
theorem from_lba_wellformed (x : Int) (h1 : -150 ≤ x)
    (_h2 : ((x + CD_MSF_OFFSET).tdiv CD_FRAMES).tdiv 60 ≤ 255) :
    (Msf.from_lba x).second ≤ 59 ∧ (Msf.from_lba x).frame ≤ 74 := by
  have ho : (0 : Int) ≤ x + 150 := by omega
  have e1 : (x + 150).tdiv 75 = (x + 150) / 75 := Int.tdiv_eq_ediv ho (by norm_num)
  have h75 : (0 : Int) ≤ (x + 150) / 75 := Int.ediv_nonneg ho (by norm_num)
  have e3 : ((x + 150) / 75).tmod 60 = (x + 150) / 75 % 60 :=
    Int.tmod_eq_emod h75 (by norm_num)
  have e4 : (x + 150).tmod 75 = (x + 150) % 75 := Int.tmod_eq_emod ho (by norm_num)
  simp only [Msf.from_lba, asU8, CD_MSF_OFFSET, CD_FRAMES]
  rw [e1, e3, e4]
  constructor <;> omega

/-- Claim C10 witness: well-formedness at the concrete address `x = 16
(= 1 second and 16 frames past the lead-in offset)`. -/
theorem from_lba_wellformed_witness :
    (Msf.from_lba 16).second ≤ 59 ∧ (Msf.from_lba 16).frame ≤ 74 :=
  from_lba_wellformed 16 (by decide) (by decide)

/-- Claim C7: for every `Operation` the derived control code equals
`(0x53 <<< 8) + opcode`; in particular `Eject` (opcode `0x09`) yields
`0x5309`, and every control code lies in the observed opcode range
`[0x5301, 0x5396]`.  `op_to_ioctl` is a total function with no error path. -/
theorem op_to_ioctl_encoding :
    op_to_ioctl Operation.Eject = 0x5309 ∧
    (∀ op : Operation, op_to_ioctl op = (0x53 <<< 8) + op.toU8) ∧
    (∀ op : Operation, 0x5301 ≤ op_to_ioctl op ∧ op_to_ioctl op ≤ 0x5396) := by
  refine ⟨rfl, fun op => rfl, fun op => ?_⟩
  cases op <;> exact ⟨by decide, by decide⟩

/-- Claim C9: both default-constructed wire request structures preset their
address-format discriminant to the time-code (MSF) format value `0x02`. -/
theorem wire_defaults_preset_msf :
    _TocEntry.default.format = AddressType.Msf.toU8 ∧
    _SubChannel.default.format = AddressType.Msf.toU8 ∧
    AddressType.Msf.toU8 = 0x02 :=
  ⟨rfl, rfl, rfl⟩

/-- Claim C8: whenever the TOC-entry or sub-channel decoder returns a
decoded value, the `adr`/`ctrl` fields are the two nibbles of the packed
`adr_ctrl` byte (`adr = b >>> 4`, `ctrl = b &&& 0x0F`); concretely, a wire
entry with `adr_ctrl = 0x14` decodes to `adr = 0x1`, `ctrl = 0x4`. -/
theorem adr_ctrl_nibble_decode :
    (∀ (e : _TocEntry) (t : TocEntry), CDRom.toc_entry (Except.ok e) = .ok t →
        t.adr = e.adr_ctrl >>> 4 ∧ t.ctrl = e.adr_ctrl &&& 0x0F) ∧
    (∀ (s : _SubChannel) (sc : SubChannel), CDRom.subchannel (Except.ok s) = .ok sc →
        sc.adr = s.adr_ctrl >>> 4 ∧ sc.ctrl = s.adr_ctrl &&& 0x0F) ∧
    CDRom.toc_entry (Except.ok { _TocEntry.default with track := 1, adr_ctrl := 0x14 }) =
      .ok { track := 1, adr := 0x1, ctrl := 0x4, addr := .Msf ⟨0, 0, 0⟩ } := by
  refine ⟨?_, ?_, by decide⟩
  · intro e t h
    simp only [CDRom.toc_entry] at h
    split_ifs at h <;>
      first
        | exact CallResult.noConfusion h
        | (injection h with h'; subst h'; exact ⟨rfl, rfl⟩)
  · intro s sc h
    simp only [CDRom.subchannel] at h
    split_ifs at h <;>
      first
        | exact CallResult.noConfusion h
        | (injection h with h'; subst h'; exact ⟨rfl, rfl⟩)

/-- Claim C8 witness: the nibble-decode theorem applied to a concrete wire
entry with packed byte `0x14`. -/
theorem adr_ctrl_nibble_decode_witness :
    ({ track := 1, adr := 0x1, ctrl := 0x4, addr := .Msf ⟨0, 0, 0⟩ } : TocEntry).adr =
      ({ _TocEntry.default with track := 1, adr_ctrl := 0x14 } : _TocEntry).adr_ctrl >>> 4 ∧
    ({ track := 1, adr := 0x1, ctrl := 0x4, addr := .Msf ⟨0, 0, 0⟩ } : TocEntry).ctrl =
      ({ _TocEntry.default with track := 1, adr_ctrl := 0x14 } : _TocEntry).adr_ctrl &&& 0x0F :=
  adr_ctrl_nibble_decode.1 { _TocEntry.default with track := 1, adr_ctrl := 0x14 }
    { track := 1, adr := 0x1, ctrl := 0x4, addr := .Msf ⟨0, 0, 0⟩ } (by decide)

/-- Claim C4: `Msf.invalid` reports invalid exactly for time codes with
`minute = 0` and `second < 2`, and `read_raw_into` called with such an
address returns `InvalidAddress` for every device outcome (i.e. without
consulting the device). -/
theorem lead_in_rejection :
    (∀ m : Msf, m.invalid = true ↔ (m.minute = 0 ∧ m.second < 2)) ∧
    (∀ (m : Msf) (bufLen : Nat) (dev : Except Int Unit),
        m.minute = 0 → m.second < 2 →
        CDRom.read_raw_into (Addr.Msf m) bufLen dev = .err .InvalidAddress) := by
  constructor
  · intro m
    simp [Msf.invalid]
  · intro m bufLen dev hm hs
    simp [CDRom.read_raw_into, Msf.invalid, hm, hs]

/-- Claim C4 witness: the lead-in time code `00:01:00` is reported invalid
and is rejected by `read_raw_into` with `InvalidAddress`. -/
theorem lead_in_rejection_witness :
    (Msf.invalid ⟨0, 1, 0⟩ = true ↔ ((0 : Nat) = 0 ∧ (1 : Nat) < 2)) ∧
    CDRom.read_raw_into (Addr.Msf ⟨0, 1, 0⟩) 2352 (Except.ok ()) = .err .InvalidAddress :=
  ⟨lead_in_rejection.1 ⟨0, 1, 0⟩,
   lead_in_rejection.2 ⟨0, 1, 0⟩ 2352 (Except.ok ()) rfl (by decide)⟩

/-- Claim C6: `read_audio_into` rejects frame counts `0` and `76` locally
(for every device outcome, hence before any device call), accepts `75`
(with an adequate buffer and a clean device status the call succeeds), and
in general the local frame-count panic fires exactly when the frame count
lies outside `[1, 75]`. -/
theorem frame_count_bounds :
    (∀ (a : Int) (bufLen : Nat) (dev : Except Int Int),
        CDRom.read_audio_into (Addr.Lba a) 0 bufLen dev = .panicked .invalidNumberOfFrames) ∧
    (∀ (a : Int) (bufLen : Nat) (dev : Except Int Int),
        CDRom.read_audio_into (Addr.Lba a) 76 bufLen dev = .panicked .invalidNumberOfFrames) ∧
    (∀ (a : Int) (bufLen : Nat), 75 * CD_FRAMESIZE_RAW / 2 ≤ bufLen →
        CDRom.read_audio_into (Addr.Lba a) 75 bufLen (Except.ok 0) = .ok ()) ∧
    (∀ (a : Int) (frames bufLen : Nat) (dev : Except Int Int),
        CDRom.read_audio_into (Addr.Lba a) frames bufLen dev = .panicked .invalidNumberOfFrames
          ↔ (frames < 1 ∨ frames > 75)) := by
  refine ⟨fun a bufLen dev => by simp [CDRom.read_audio_into],
          fun a bufLen dev => by simp [CDRom.read_audio_into],
          ?_, ?_⟩
  · intro a bufLen h
    simp only [CD_FRAMESIZE_RAW] at h
    simp only [CDRom.read_audio_into, CD_FRAMESIZE_RAW]
    rw [if_neg (by omega), if_neg (by omega)]
    rfl
  · intro a frames bufLen dev
    simp only [CDRom.read_audio_into]
    split_ifs with h1 h2
    · exact iff_of_true rfl h1
    · exact iff_of_false (by simp) h1
    · constructor
      · intro hc
        cases dev with
        | error e => exact absurd hc (by simp)
        | ok status =>
          by_cases hs : status ≠ 0
          · exact absurd hc (by simp [hs])
          · exact absurd hc (by simp [hs])
      · intro hc
        exact absurd hc h1

/-- Claim C6 witness: `frames = 75` with a buffer of exactly
`75 * 2352 / 2 = 88200` elements and a clean device status succeeds. -/
theorem frame_count_bounds_witness :
    CDRom.read_audio_into (Addr.Lba 0) 75 88200 (Except.ok 0) = .ok () :=
  frame_count_bounds.2.2.1 0 88200 (by decide)

/-- Claim C1 counterexample: `read_audio_into` with `frames = 10` and a
buffer of `11759` elements panics (`"Buffer is too small!"`); it does NOT
produce the typed error `InvalidBufferSize(11760, 11759)` the claim
states. -/
theorem read_audio_buffer_counterexample :
    CDRom.read_audio_into (Addr.Lba 0) 10 11759 (Except.ok 0) = .panicked .bufferTooSmall ∧
    ¬ CDRom.read_audio_into (Addr.Lba 0) 10 11759 (Except.ok 0) =
        .err (.InvalidBufferSize 11760 11759) := by
  constructor <;> decide

/-- Claim C1 (amended): with a valid address and a frame count in `[1, 75]`,
any buffer shorter than `frames * 2352 / 2` elements makes `read_audio_into`
panic with the buffer-too-small message, with the same outcome for every
device result — the rejection is local and the device is never consulted. -/
theorem read_audio_undersized_rejected_locally (address : Addr) (frames bufLen : Nat)
    (dev dev2 : Except Int Int)
    (haddr : ∀ m : Msf, address = Addr.Msf m → ¬(m.minute = 0 ∧ m.second < 2))
    (hf1 : 1 ≤ frames) (hf2 : frames ≤ 75)
    (hb : bufLen < frames * CD_FRAMESIZE_RAW / 2) :
    CDRom.read_audio_into address frames bufLen dev = .panicked .bufferTooSmall ∧
    CDRom.read_audio_into address frames bufLen dev =
      CDRom.read_audio_into address frames bufLen dev2 := by
  have key : ∀ d : Except Int Int,
      CDRom.read_audio_into address frames bufLen d = .panicked .bufferTooSmall := by
    intro d
    cases address with
    | Lba a =>
      simp only [CDRom.read_audio_into]
      rw [if_neg (by omega), if_pos hb]
    | Msf m =>
      simp only [CDRom.read_audio_into]
      rw [if_neg (haddr m rfl), if_neg (by omega), if_pos hb]
  exact ⟨key dev, (key dev).trans (key dev2).symm⟩

/-- Claim C1 witness: the amended theorem at the concrete input of the
claim (`frames = 10`, buffer `11759`), for two different device outcomes. -/
theorem read_audio_undersized_witness :
    CDRom.read_audio_into (Addr.Lba 0) 10 11759 (Except.error 5) = .panicked .bufferTooSmall ∧
    CDRom.read_audio_into (Addr.Lba 0) 10 11759 (Except.error 5) =
      CDRom.read_audio_into (Addr.Lba 0) 10 11759 (Except.ok 7) :=
  read_audio_undersized_rejected_locally (Addr.Lba 0) 10 11759 (Except.error 5) (Except.ok 7)
    (fun m h => Addr.noConfusion h) (by decide) (by decide) (by decide)

/-- Claim C2 counterexample: when the TOC-header device call fails with
`EIO` (any non-`ENOMEDIUM` errno), `toc_header` does NOT pass the failure
through as an errno-wrapping error — it swallows it and returns the
still-default header as success. -/
theorem toc_header_swallows_counterexample :
    CDRom.toc_header (Except.error EIO) = Except.ok TocHeader.default ∧
    ¬ CDRom.toc_header (Except.error EIO) = Except.error (CDRomError.Errno EIO) :=
  ⟨rfl, fun h => Except.noConfusion h⟩

/-- Claim C2 (amended): `toc_header` returns `NoDisc` exactly when the
device call fails with `ENOMEDIUM`; every other OS-level failure is
swallowed, the call returning the default (zeroed) header as success, and a
successful call returns the device-written header. -/
theorem toc_header_decodes_only_enomedium :
    (∀ dev : Except Int TocHeader,
        CDRom.toc_header dev = Except.error CDRomError.NoDisc ↔
          dev = Except.error ENOMEDIUM) ∧
    (∀ e : Int, e ≠ ENOMEDIUM →
        CDRom.toc_header (Except.error e) = Except.ok TocHeader.default) ∧
    (∀ h : TocHeader, CDRom.toc_header (Except.ok h) = Except.ok h) := by
  refine ⟨?_, ?_, fun h => rfl⟩
  · intro dev
    cases dev with
    | error e =>
      simp only [CDRom.toc_header]
      split_ifs with he
      · simp [he]
      · simp [he]
    | ok h => simp [CDRom.toc_header]
  · intro e he
    simp [CDRom.toc_header, he]

/-- Claim C2 witness: the amended theorem applied at the concrete errno
`EIO`. -/
theorem toc_header_decodes_only_enomedium_witness :
    CDRom.toc_header (Except.error (5 : Int)) = Except.ok TocHeader.default :=
  toc_header_decodes_only_enomedium.2.1 5 (by decide)

/-- Claim C5 counterexample: when the lock-door device call fails with the
standard operation-not-supported code `EOPNOTSUPP`, `set_lock` returns the
errno-wrapping internal error, NOT `Unsupported` as the claim states. -/
theorem set_lock_eopnotsupp_counterexample :
    CDRom.set_lock true (Except.error EOPNOTSUPP) = .err (.Errno EOPNOTSUPP) ∧
    ¬ CDRom.set_lock true (Except.error EOPNOTSUPP) = .err .Unsupported := by
  constructor <;> decide

/-- Claim C5 (amended): `set_lock` returns `Busy` on `EBUSY`; every other
OS-level failure (the operation-not-supported code included) is returned as
an errno-wrapping internal error; and every SUCCESSFUL device call returns
`Unsupported` regardless of the returned value — the sentinel comparison in
linux.rs binds instead of comparing, so the sentinel value and every other
success value alike map to `Unsupported`. -/
theorem set_lock_decode (locked : Bool) :
    CDRom.set_lock locked (Except.error EBUSY) = .err .Busy ∧
    (∀ e : Int, e ≠ EBUSY → CDRom.set_lock locked (Except.error e) = .err (.Errno e)) ∧
    (∀ v : Int, CDRom.set_lock locked (Except.ok v) = .err .Unsupported) := by
  refine ⟨rfl, ?_, fun v => rfl⟩
  intro e he
  simp [CDRom.set_lock, he]

/-- Claim C5 witness: the amended theorem at concrete inputs — `ENOSYS`
failure wraps the errno; the `EDRIVE_CANT_DO_THIS` sentinel and a plain `0`
success value both yield `Unsupported`. -/
theorem set_lock_decode_witness :
    CDRom.set_lock true (Except.error ENOSYS) = .err (.Errno ENOSYS) ∧
    CDRom.set_lock true (Except.ok EDRIVE_CANT_DO_THIS) = .err .Unsupported ∧
    CDRom.set_lock true (Except.ok 0) = .err .Unsupported :=
  ⟨(set_lock_decode true).2.1 ENOSYS (by decide),
   (set_lock_decode true).2.2 EDRIVE_CANT_DO_THIS,
   (set_lock_decode true).2.2 0⟩

end SunnyMilk
